import Mathlib

/-!
Verification of `LFPy/run_simulation.py` against its specification.

The Python module is shallowly embedded below.  Scalars computed by the
engine (times, currents, areas, coordinates) are modelled as rationals,
numpy arrays as lists, and attributes that may be absent as `Option`.
Python exceptions are modelled with `Except String`.
-/

namespace LFPy

/-! ## Integrator setup (source lines 24–33 and 154–165)

`_run_simulation` and `_run_simulation_with_electrode` both create a
`CVode` object and either activate it with an absolute tolerance or leave
fixed time stepping active.  The state of the integrator after the setup
block is captured by `CVodeState`: `active` mirrors `cvode.active(...)`,
`atol` is `some` exactly when `cvode.atol(...)` was called. -/

structure CVodeState where
  active : Bool
  atol : Option ℚ
deriving DecidableEq

/-- Integrator setup of `_run_simulation` (lines 29–33):
`if variable_dt: cvode.active(1); cvode.atol(atol) else: cvode.active(0)`. -/
def cvodeSetup_run_simulation (variable_dt : Bool) (atol : ℚ) : CVodeState :=
  if variable_dt then ⟨true, some atol⟩ else ⟨false, none⟩

/-- Integrator setup of `_run_simulation_with_electrode` (lines 161–165):
`if cell.timeres_NEURON <= 1E-8: cvode.active(1); cvode.atol(atol)
else: cvode.active(0)`.  The function's `variable_dt` argument is not
read anywhere in this block (nor elsewhere in the function body). -/
def cvodeSetup_with_electrode (timeres_NEURON : ℚ) (variable_dt : Bool)
    (atol : ℚ) : CVodeState :=
  if timeres_NEURON ≤ 1 / 100000000 then ⟨true, some atol⟩ else ⟨false, none⟩

/-! ## Result-series allocation (source lines 196–211)

Memory path: `np.empty((coeffs.shape[0], int(cell.tstopms / cell.timeres_NEURON) + 1))`.
File path: `np.empty((coeffs.shape[0], int(cell.tstopms / cell.timeres_NEURON + 1)))`.
Python's `int()` truncates toward zero; `pyInt` embeds that. -/

def pyInt (q : ℚ) : ℤ := if 0 ≤ q then ⌊q⌋ else ⌈q⌉

/-- Shape of the memory-path array for one coefficient matrix
(`coeffs.shape[0]` rows, `int(tstopms / timeres_NEURON) + 1` columns). -/
def memAllocShape (coeffs : List (List ℚ)) (tstopms timeres_NEURON : ℚ) :
    ℕ × ℤ :=
  (coeffs.length, pyInt (tstopms / timeres_NEURON) + 1)

/-- Shape of the file-path dataset for one coefficient matrix
(`coeffs.shape[0]` rows, `int(tstopms / timeres_NEURON + 1)` columns). -/
def fileAllocShape (coeffs : List (List ℚ)) (tstopms timeres_NEURON : ℚ) :
    ℕ × ℤ :=
  (coeffs.length, pyInt (tstopms / timeres_NEURON + 1))

/-! ## The simulation loop of `_run_simulation_with_electrode`
(source lines 79–84, 193–266)

The external engine is modelled by the sequence of states it exposes at
the retained steps: at each retained step (`neuron.h.t >= 0`) the code
walks `cell.allseclist` section by section and each section segment by
segment, reading `seg.i_membrane`.  One engine snapshot is therefore a
`List (List ℚ)`: the per-section lists of segment membrane-current
densities, in iteration order.  The `imem` buffer (`np.empty(totnsegs)`,
allocated once before the loop and reused) is a `List ℚ` of length
`totnsegs`; `np.empty` is modelled as a zero-initialised buffer.
One result series is the list of columns written so far, each column a
per-contact potential list. -/

abbrev Series := List (List ℚ)

def dotList (a b : List ℚ) : ℚ := (List.zipWith (· * ·) a b).sum

/-- `np.dot(coeffs, imem)` for a 2-D `coeffs` and 1-D `imem`. -/
def npDot (coeffs : List (List ℚ)) (v : List ℚ) : List ℚ :=
  coeffs.map (fun row => dotList row v)

/-- The nested read `for sec in cell.allseclist: for seg in sec:
imem[i] = seg.i_membrane; i += 1` writing into the reused buffer of
length `totnsegs`.  Entries beyond the segments read keep their previous
buffer contents; writing more segments than the buffer holds raises
`IndexError`. -/
def readSnapshot (buffer : List ℚ) (snap : List (List ℚ)) :
    Except String (List ℚ) :=
  let flat := snap.flatten
  if flat.length ≤ buffer.length then
    .ok (flat ++ buffer.drop flat.length)
  else
    .error "IndexError"

/-- One retained-step current read followed by the in-place unit
conversion `imem *= area`, where `area = cell.area * 1E-2` was
precomputed (line 215).  `area2` is that precomputed scaled area
vector. -/
def stepCurrents (area2 buffer : List ℚ) (snap : List (List ℚ)) :
    Except String (List ℚ) :=
  match readSnapshot buffer snap with
  | .error e => .error e
  | .ok raw => .ok (List.zipWith (· * ·) raw area2)

/-- The memory-path deposit `electrodesLFP[j][:, tstep] = np.dot(coeffs, imem)`
for every `j` (lines 227–229); a series is its list of written columns. -/
def memDeposit (dotprodcoeffs : List (List (List ℚ))) (imem : List ℚ)
    (mem : List Series) : List Series :=
  List.zipWith (fun arr coeffs => arr ++ [npDot coeffs imem]) mem dotprodcoeffs

/-- The file-path deposit `el_LFP_file['electrode%03d'][:, tstep] = np.dot(coeffs, imem)`
for every `j` (lines 231–234). -/
def fileDeposit (dotprodcoeffs : List (List (List ℚ))) (imem : List ℚ)
    (file : List Series) : List Series :=
  List.zipWith (fun ds coeffs => ds ++ [npDot coeffs imem]) file dotprodcoeffs

/-- Mutable state of the loop: the reused `imem` buffer and the two
output sinks (`none` when the corresponding flag is off and the sink was
never allocated). -/
structure LoopState where
  buffer : List ℚ
  mem : Option (List Series)
  file : Option (List Series)
deriving DecidableEq

/-- Body of one retained step: read currents, convert units in place,
deposit one column per coefficient matrix into each active sink. -/
def loopBody (dotprodcoeffs : List (List (List ℚ))) (area2 : List ℚ)
    (st : LoopState) (snap : List (List ℚ)) : Except String LoopState :=
  match stepCurrents area2 st.buffer snap with
  | .error e => .error e
  | .ok imem =>
    .ok { buffer := imem,
          mem := st.mem.map (memDeposit dotprodcoeffs imem),
          file := st.file.map (fileDeposit dotprodcoeffs imem) }

/-- The retained steps of the `while neuron.h.t < cell.tstopms` loop
(lines 217–245).  Any exception propagates: the loop body is not guarded. -/
def runLoop (dotprodcoeffs : List (List (List ℚ))) (area2 : List ℚ) :
    LoopState → List (List (List ℚ)) → Except String LoopState
  | st, [] => .ok st
  | st, snap :: rest =>
    match loopBody dotprodcoeffs area2 st snap with
    | .error e => .error e
    | .ok st2 => runLoop dotprodcoeffs area2 st2 rest

/-- The LFP computation after the final `fadvance()` (lines 247–266),
wrapped in `try: ... except: pass`: on any error the state is left as it
was and the error is discarded. -/
def finalBlock (dotprodcoeffs : List (List (List ℚ))) (area2 : List ℚ)
    (st : LoopState) (finalSnap : List (List ℚ)) : LoopState :=
  match loopBody dotprodcoeffs area2 st finalSnap with
  | .error _ => st
  | .ok st2 => st2

/-- The `import h5py` guard (lines 79–84): when the backend is missing a
warning is printed and the overriding `to_file = False; file_name = None`
is applied; otherwise the caller's values pass through unchanged.
Returns `(to_file, file_name, printed warnings)`. -/
def importH5py (h5pyAvailable to_file : Bool) (file_name : Option String) :
    Bool × Option String × List String :=
  if h5pyAvailable then (to_file, file_name, [])
  else (false, none, ["h5py not found, LFP to file not possible"])

/-- File-name normalization (lines 203–205):
`if file_name.split('.')[-1] != 'h5': file_name += '.h5'`. -/
def normalizeFileName (s : String) : String :=
  if (s.splitOn ".").getLastD "" ≠ "h5" then s ++ ".h5" else s

/-- Observable outputs of the loop part of
`_run_simulation_with_electrode`: the in-memory series per coefficient
matrix, the file datasets per coefficient matrix with the file's name,
and the warnings printed. -/
structure DriverOut where
  mem : Option (List Series)
  file : Option (List Series)
  fileName : Option String
  warnings : List String
deriving DecidableEq

/-- Packaging of the loop's outcome: a loop error propagates; otherwise
the final-step block runs (errors swallowed) and the sink contents are
returned together with the normalized file name and the warnings. -/
def driverFinish (to_file : Bool) (file_name : Option String)
    (warnings : List String) (dotprodcoeffs : List (List (List ℚ)))
    (area2 : List ℚ) (finalSnap : List (List ℚ)) :
    Except String LoopState → Except String DriverOut
  | .error e => .error e
  | .ok st =>
    .ok { mem := (finalBlock dotprodcoeffs area2 st finalSnap).mem,
          file := (finalBlock dotprodcoeffs area2 st finalSnap).file,
          fileName := if to_file then file_name.map normalizeFileName else none,
          warnings := warnings }

/-- Allocation plus loop plus final block of
`_run_simulation_with_electrode`, after the `import h5py` guard resolved
`to_file`, `file_name` and the warnings. -/
def driverCore (to_memory to_file : Bool) (file_name : Option String)
    (warnings : List String) (dotprodcoeffs : List (List (List ℚ)))
    (totnsegs : ℕ) (area : List ℚ) (loopSnaps : List (List (List ℚ)))
    (finalSnap : List (List ℚ)) : Except String DriverOut :=
  let mem0 : Option (List Series) :=
    if to_memory then some (dotprodcoeffs.map (fun _ => [])) else none
  let file0 : Option (List Series) :=
    if to_file then some (dotprodcoeffs.map (fun _ => [])) else none
  let area2 := area.map (· * (1/100))
  let st0 : LoopState :=
    { buffer := List.replicate totnsegs 0, mem := mem0, file := file0 }
  driverFinish to_file file_name warnings dotprodcoeffs area2 finalSnap
    (runLoop dotprodcoeffs area2 st0 loopSnaps)

/-- The loop part of `_run_simulation_with_electrode` end to end:
`import h5py` guard, sink allocation, retained-step loop, final-step
block. -/
def run_simulation_with_electrode_loop (h5pyAvailable to_memory to_file : Bool)
    (file_name : Option String) (dotprodcoeffs : List (List (List ℚ)))
    (totnsegs : ℕ) (area : List ℚ) (loopSnaps : List (List (List ℚ)))
    (finalSnap : List (List ℚ)) : Except String DriverOut :=
  let cfg := importH5py h5pyAvailable to_file file_name
  driverCore to_memory cfg.1 cfg.2.1 cfg.2.2 dotprodcoeffs totnsegs area
    loopSnaps finalSnap

/-! ## The geometry extractor `_collect_geometry_neuron`
(source lines 292–368)

A section as the engine exposes it: the 3-D sample points
(`arc3d`, `x3d`, `y3d`, `z3d` per point), the section length `sec.L`,
and the segments obtained by iterating the section, each with its
midpoint fraction `seg.x`, diameter `seg.diam`, and the area the engine
reports at `seg.x`.  `nseg` equals the number of segments the iteration
yields. -/

structure Pt3d where
  arc : ℚ
  x : ℚ
  y : ℚ
  z : ℚ
deriving DecidableEq

structure NrnSeg where
  x : ℚ
  diam : ℚ
  area : ℚ
deriving DecidableEq

structure NrnSection where
  pt3d : List Pt3d
  L : ℚ
  segs : List NrnSeg
deriving DecidableEq

structure NrnCell where
  allseclist : List NrnSection
  totnsegs : ℕ
deriving DecidableEq

/-- `numpy.round` to integer: round half to even. -/
def roundHalfEven (q : ℚ) : ℤ :=
  let f := ⌊q⌋
  let r := q - (f : ℚ)
  if r < 1/2 then f
  else if 1/2 < r then f + 1
  else if f % 2 = 0 then f else f + 1

/-- `.round(decimals=6)` of numpy on a scalar. -/
def pyRound6 (q : ℚ) : ℚ := (roundHalfEven (q * 1000000) : ℚ) / 1000000

/-- `np.interp` over a list of `(xp, fp)` pairs with `xp` increasing:
piecewise linear, clamped to the end values outside the range. -/
def npInterpAux (xq : ℚ) : List (ℚ × ℚ) → ℚ
  | [] => 0
  | [(_, fp)] => fp
  | (x0, f0) :: (x1, f1) :: rest =>
    if xq ≤ x0 then f0
    else if xq ≤ x1 then f0 + (f1 - f0) * (xq - x0) / (x1 - x0)
    else npInterpAux xq ((x1, f1) :: rest)

def npInterp (xq : ℚ) (xp fp : List ℚ) : ℚ := npInterpAux xq (xp.zip fp)

/-- Per-segment outputs of the geometry extractor. -/
structure SegGeom where
  xstart : ℚ
  xend : ℚ
  ystart : ℚ
  yend : ℚ
  zstart : ℚ
  zend : ℚ
  area : ℚ
  diam : ℚ
  length : ℚ
deriving DecidableEq

/-- Body of the `n3d > 0` branch for one section (lines 315–355):
normalize arc lengths by `sec.L`, round the per-segment start/end
fractions to 6 decimals, interpolate the coordinates, and read area,
diameter and length per segment. -/
def sectionGeom (sec : NrnSection) : List SegGeom :=
  let nseg := sec.segs.length
  let gsen2 : ℚ := 1/2/(nseg : ℚ)
  let Lnorm := sec.pt3d.map (fun p => p.arc / sec.L)
  let xs := sec.pt3d.map (fun p => p.x)
  let ys := sec.pt3d.map (fun p => p.y)
  let zs := sec.pt3d.map (fun p => p.z)
  sec.segs.map (fun seg =>
    let segx0 := pyRound6 (seg.x - gsen2)
    let segx1 := pyRound6 (seg.x + gsen2)
    { xstart := npInterp segx0 Lnorm xs
      xend := npInterp segx1 Lnorm xs
      ystart := npInterp segx0 Lnorm ys
      yend := npInterp segx1 Lnorm ys
      zstart := npInterp segx0 Lnorm zs
      zend := npInterp segx1 Lnorm zs
      area := seg.area
      diam := seg.diam
      length := sec.L / (nseg : ℚ) })

/-- The geometry arrays attached to the cell, each of length
`totnsegs`. -/
structure GeomArrays where
  xstart : List ℚ
  ystart : List ℚ
  zstart : List ℚ
  xend : List ℚ
  yend : List ℚ
  zend : List ℚ
  area : List ℚ
  diam : List ℚ
  length : List ℚ
deriving DecidableEq

/-- The `np.zeros(totnsegs)` arrays written left to right from `counter`:
the entries past the last written index keep their zero initialisation. -/
def padTo (n : ℕ) (l : List ℚ) : List ℚ :=
  l.take n ++ List.replicate (n - l.length) 0

/-- `_collect_geometry_neuron`: loop over `allseclist`; a section whose
3-D point count is zero is passed over without advancing `counter`
(there is no `else` branch for `n3d > 0` and no exception anywhere), so
its segments are skipped and every array keeps zeros in the trailing
positions. -/
def collect_geometry_neuron (cell : NrnCell) : GeomArrays :=
  let contribs := cell.allseclist.foldl
    (fun acc sec => if sec.pt3d.length > 0 then acc ++ sectionGeom sec else acc)
    []
  { xstart := padTo cell.totnsegs (contribs.map (fun g => g.xstart))
    ystart := padTo cell.totnsegs (contribs.map (fun g => g.ystart))
    zstart := padTo cell.totnsegs (contribs.map (fun g => g.zstart))
    xend := padTo cell.totnsegs (contribs.map (fun g => g.xend))
    yend := padTo cell.totnsegs (contribs.map (fun g => g.yend))
    zend := padTo cell.totnsegs (contribs.map (fun g => g.zend))
    area := padTo cell.totnsegs (contribs.map (fun g => g.area))
    diam := padTo cell.totnsegs (contribs.map (fun g => g.diam))
    length := padTo cell.totnsegs (contribs.map (fun g => g.length)) }

/-! ## The coefficient-matrix probe phase
(source lines 111–149 of `_run_simulation_with_electrode`)

An electrode collaborator carries two attributes this code reads and
writes, both of which may be absent (`Option`), plus the `perCellLFP`
flag read at finalization and the `electrodecoeff` written there. -/

structure Electrode where
  LFP : Option (List (List ℚ))
  CellLFP : Option (List (List (List ℚ)))
  perCellLFP : Bool
  probeLFP : List (List ℚ)
  electrodecoeff : Option (List (List ℚ))
deriving DecidableEq

/-- Modelled from the spec: the electrode collaborator's
`calc_lfp(cell)` (its class is outside this repository's core sources)
"must expose a `calc_lfp(cell)` operation usable ... as a probe" that
stores the computed potential on the electrode's `LFP` attribute; the
computed matrix is carried by the `probeLFP` field. -/
def calc_lfp (el : Electrode) : Electrode := { el with LFP := some el.probeLFP }

/-- The Python locals of the probe loop.  `restoreLFP`, `restoreCellLFP`,
`LFPcopy` and `CellLFP` are initialised once before the loop (lines
120–122) and never reset inside it, so their values persist from one
electrode to the next. -/
structure ProbeAcc where
  dotprodcoeffs : List (List (List ℚ))
  restoreLFP : Bool
  restoreCellLFP : Bool
  LFPcopy : Option (List (List ℚ))
  CellLFPsaved : Option (List (List (List ℚ)))
  processed : List Electrode
deriving DecidableEq

/-- One iteration of `for el in electrodes:` (lines 123–142). -/
def probeStep (acc : ProbeAcc) (el0 : Electrode) : ProbeAcc :=
  let hasLFP := el0.LFP.isSome
  let LFPcopy := if hasLFP then el0.LFP else acc.LFPcopy
  let restoreLFP := acc.restoreLFP || hasLFP
  let el1 := if hasLFP then { el0 with LFP := none } else el0
  let hasCell := el1.CellLFP.isSome
  let CellLFPsaved := if hasCell then el1.CellLFP else acc.CellLFPsaved
  let restoreCellLFP := acc.restoreCellLFP || hasCell
  let el2 := calc_lfp el1
  let coeffs2 := acc.dotprodcoeffs ++ [el2.probeLFP]
  let el3 := if restoreLFP then { el2 with LFP := LFPcopy }
             else { el2 with LFP := none }
  let el4 := if restoreCellLFP then { el3 with CellLFP := CellLFPsaved }
             else { el3 with CellLFP := none }
  { dotprodcoeffs := coeffs2
    restoreLFP := restoreLFP
    restoreCellLFP := restoreCellLFP
    LFPcopy := LFPcopy
    CellLFPsaved := CellLFPsaved
    processed := acc.processed ++ [el4] }

/-- The probe loop over the electrode list, starting from the
caller-supplied `dotprodcoeffs` (possibly empty). -/
def probeRun (els : List Electrode) (dp0 : List (List (List ℚ))) : ProbeAcc :=
  els.foldl probeStep
    { dotprodcoeffs := dp0, restoreLFP := false, restoreCellLFP := false,
      LFPcopy := none, CellLFPsaved := none, processed := [] }

/-- The cell attributes the probe phase touches. -/
structure CellProbe where
  tvec : List ℚ
  imem : Option (List (List ℚ))
  totnsegs : ℕ
  timeres_python : ℚ
deriving DecidableEq

/-- `np.eye(n)`. -/
def eyeQ (n : ℕ) : List (List ℚ) :=
  (List.range n).map (fun i =>
    (List.range n).map (fun j => if i = j then 1 else 0))

/-- `np.arange(n) * dt`. -/
def arangeMul (n : ℕ) (dt : ℚ) : List ℚ :=
  (List.range n).map (fun i => (i : ℚ) * dt)

/-- The probe phase (lines 111–149): save `tvec` and, when bound,
a copy of `imem` (`try: cellImem = cell.imem.copy() except: pass`);
set `imem` to the identity and `tvec` to `arange(totnsegs) *
timeres_python`; run the probe loop; put `tvec` back; then
`try: cell.imem = cellImem except: del cell.imem` — when `cellImem` was
never bound the assignment raises `NameError` and the temporary `imem`
is deleted. -/
def probePhase (cell : CellProbe) (els : List Electrode)
    (dp0 : List (List (List ℚ))) : CellProbe × ProbeAcc :=
  let cellTvec := cell.tvec
  let cellImem := cell.imem
  let cell1 := { cell with imem := some (eyeQ cell.totnsegs),
                           tvec := arangeMul cell.totnsegs cell.timeres_python }
  let acc := probeRun els dp0
  let cell2 := { cell1 with tvec := cellTvec }
  let cell3 :=
    match cellImem with
    | some m => { cell2 with imem := some m }
    | none => { cell2 with imem := none }
  (cell3, acc)

/-! ## Finalization merge (source lines 268–289, `to_memory` branch) -/

/-- `electrodes[j-lendotrodcoeffs0].LFP += LFP`: numpy elementwise
addition of equally-shaped result arrays. -/
def addLFPmat (a b : List (List ℚ)) : List (List ℚ) :=
  List.zipWith (List.zipWith (· + ·)) a b

/-- One iteration of `for j, LFP in enumerate(electrodesLFP):`
(lines 275–286).  List indexing out of range raises `IndexError`;
`.append` on an attribute that is not bound raises `AttributeError`.
Note the `hasattr` guard on line 283 inspects `electrodes[j]`, not
`electrodes[j - lendotrodcoeffs0]`. -/
def finalizeStep (lendotrodcoeffs0 : ℕ) (dotprodcoeffs : List (List (List ℚ)))
    (els : List Electrode) (j : ℕ) (LFP : List (List ℚ)) :
    Except String (List Electrode) :=
  if j < lendotrodcoeffs0 then .ok els
  else
    match els[j - lendotrodcoeffs0]? with
    | none => .error "IndexError"
    | some e =>
      let e1 :=
        match e.LFP with
        | some old => { e with LFP := some (addLFPmat old LFP) }
        | none => { e with LFP := some LFP }
      let els1 := els.set (j - lendotrodcoeffs0) e1
      let afterCell : Except String (List Electrode) :=
        if e1.perCellLFP then
          match els1[j]? with
          | none => .error "IndexError"
          | some ej =>
            let e2 := if ej.CellLFP.isNone then { e1 with CellLFP := some [] }
                      else e1
            match e2.CellLFP with
            | none => .error "AttributeError"
            | some lst =>
              .ok (els1.set (j - lendotrodcoeffs0)
                { e2 with CellLFP := some (lst ++ [LFP]) })
        else .ok els1
      match afterCell with
      | .error msg => .error msg
      | .ok els2 =>
        match dotprodcoeffs[j]? with
        | none => .error "IndexError"
        | some c =>
          let t := els2.getD (j - lendotrodcoeffs0) e1
          .ok (els2.set (j - lendotrodcoeffs0)
            { t with electrodecoeff := some c })

/-- The whole `enumerate(electrodesLFP)` loop, threading the mutated
electrode list and the running index `j`. -/
def finalizeLoop (lendotrodcoeffs0 : ℕ)
    (dotprodcoeffs : List (List (List ℚ))) :
    List Electrode → ℕ → List (List (List ℚ)) → Except String (List Electrode)
  | els, _, [] => .ok els
  | els, j, LFP :: rest =>
    match finalizeStep lendotrodcoeffs0 dotprodcoeffs els j LFP with
    | .error e => .error e
    | .ok els2 => finalizeLoop lendotrodcoeffs0 dotprodcoeffs els2 (j+1) rest

/-- The `to_memory` finalization (lines 270–286):
`cell.dotprodresults = electrodesLFP[:lendotrodcoeffs0]`, then the merge
loop over all result series when an electrode list is present.  Returns
`(cell.dotprodresults, updated electrodes)`. -/
def finalize_to_memory (lendotrodcoeffs0 : ℕ)
    (electrodes : Option (List Electrode))
    (electrodesLFP : List (List (List ℚ)))
    (dotprodcoeffs : List (List (List ℚ))) :
    Except String (List (List (List ℚ)) × Option (List Electrode)) :=
  let dotprodresults := electrodesLFP.take lendotrodcoeffs0
  match electrodes with
  | none => .ok (dotprodresults, none)
  | some els =>
    match finalizeLoop lendotrodcoeffs0 dotprodcoeffs els 0 electrodesLFP with
    | .error e => .error e
    | .ok els2 => .ok (dotprodresults, some els2)

end LFPy

namespace LFPy

/-- C1: in `_run_simulation_with_electrode`, adaptive integration is
claimed to be enabled iff `variable_dt` is set, regardless of
`cell.timeres_NEURON`.  The code instead tests `timeres_NEURON <= 1E-8`
and never reads `variable_dt`: with `variable_dt = true` and
`timeres_NEURON = 1/10` the integrator stays fixed-step with no
tolerance, and with `variable_dt = false` and `timeres_NEURON = 1e-9`
it is activated.  (The sibling `_run_simulation` does follow the claim.) -/
theorem c1_variable_dt_ignored :
    cvodeSetup_with_electrode (1/10) true (1/1000) = ⟨false, none⟩ ∧
    cvodeSetup_with_electrode (1/1000000000) false (1/1000) =
      ⟨true, some (1/1000)⟩ ∧
    cvodeSetup_run_simulation true (1/1000) = ⟨true, some (1/1000)⟩ := by
  refine ⟨?_, ?_, ?_⟩
  · norm_num [cvodeSetup_with_electrode]
  · norm_num [cvodeSetup_with_electrode]
  · norm_num [cvodeSetup_run_simulation]

/-- C6: for every coefficient matrix the memory-path array and the
file-path dataset have identical shapes, namely `coeffs.shape[0]` rows
and `⌊tstopms / timeres⌋ + 1` columns. -/
theorem c6_result_shape (coeffs : List (List ℚ)) (tstopms timeres : ℚ)
    (h1 : 0 ≤ tstopms) (h2 : 0 < timeres) :
    memAllocShape coeffs tstopms timeres = fileAllocShape coeffs tstopms timeres ∧
    memAllocShape coeffs tstopms timeres =
      (coeffs.length, ⌊tstopms / timeres⌋ + 1) := by
  have hq : (0:ℚ) ≤ tstopms / timeres := div_nonneg h1 h2.le
  have hq1 : (0:ℚ) ≤ tstopms / timeres + 1 := by linarith
  constructor
  · simp [memAllocShape, fileAllocShape, pyInt, if_pos hq, if_pos hq1,
      Int.floor_add_one]
  · simp [memAllocShape, pyInt, if_pos hq]

/-- Witness for `c6_result_shape` at `coeffs = [[1]]`, `tstopms = 3`,
`timeres = 2`: both shapes evaluate to `(1, 2)`. -/
theorem c6_result_shape_witness :
    (0:ℚ) ≤ 3 ∧ (0:ℚ) < 2 ∧
    memAllocShape [[(1:ℚ)]] 3 2 = fileAllocShape [[(1:ℚ)]] 3 2 ∧
    memAllocShape [[(1:ℚ)]] 3 2 = (1, 2) := by
  refine ⟨by norm_num, by norm_num,
    (c6_result_shape [[(1:ℚ)]] 3 2 (by norm_num) (by norm_num)).1, ?_⟩
  have h := (c6_result_shape [[(1:ℚ)]] 3 2 (by norm_num) (by norm_num)).2
  have hf : ⌊(3:ℚ) / 2⌋ = 1 := by norm_num
  simpa [hf] using h

lemma zipWith_mul_map_right (l1 l2 : List ℚ) (c : ℚ) :
    List.zipWith (· * ·) l1 (l2.map (· * c)) =
      List.zipWith (fun d a => d * (a * c)) l1 l2 := by
  induction l1 generalizing l2 with
  | nil => simp
  | cons x xs ih => cases l2 <;> simp [ih]

lemma readSnapshot_full (buffer : List ℚ) (snap : List (List ℚ))
    (h : snap.flatten.length = buffer.length) :
    readSnapshot buffer snap = .ok snap.flatten := by
  unfold readSnapshot
  rw [if_pos h.le, h, List.drop_length, List.append_nil]

/-- C5: at a retained step whose live read fills the whole `imem` buffer,
the current vector handed to the sinks is the per-segment membrane
current density, in `allseclist` iteration order, multiplied elementwise
by the per-segment area scaled by `1E-2`. -/
theorem c5_current_conversion (cellArea buffer : List ℚ)
    (snap : List (List ℚ)) (h : snap.flatten.length = buffer.length) :
    stepCurrents (cellArea.map (· * (1/100))) buffer snap =
      .ok (List.zipWith (fun dens a => dens * (a * (1/100)))
            snap.flatten cellArea) := by
  unfold stepCurrents
  rw [readSnapshot_full buffer snap h]
  exact congrArg Except.ok (zipWith_mul_map_right snap.flatten cellArea (1/100))

/-- Witness for `c5_current_conversion`: one section with one segment of
density `3` and area `200` yields the deposit current `3 * (200 * 1E-2)`. -/
theorem c5_current_conversion_witness :
    ([[(3:ℚ)]] : List (List ℚ)).flatten.length = [(0:ℚ)].length ∧
    stepCurrents ([(200:ℚ)].map (· * (1/100))) [0] [[3]] =
      .ok (List.zipWith (fun dens a => dens * (a * (1/100)))
            ([[(3:ℚ)]] : List (List ℚ)).flatten [200]) := by
  have h : ([[(3:ℚ)]] : List (List ℚ)).flatten.length = [(0:ℚ)].length := by
    simp
  exact ⟨h, c5_current_conversion [200] [0] [[3]] h⟩

lemma except_map_ok {α β : Type} (f : α → β) (a : α) :
    Except.map f (.ok a : Except String α) = .ok (f a) := rfl

lemma except_map_error {α β : Type} (f : α → β) (e : String) :
    Except.map f (.error e : Except String α) = .error e := rfl

lemma fileDeposit_eq_memDeposit (dp : List (List (List ℚ))) (imem : List ℚ) :
    fileDeposit dp imem = memDeposit dp imem := rfl

lemma runLoop_file_eq_mem (dp : List (List (List ℚ))) (area2 : List ℚ)
    (snaps : List (List (List ℚ))) :
    ∀ st : LoopState, st.file = st.mem →
      (runLoop dp area2 st snaps).map LoopState.file =
        (runLoop dp area2 st snaps).map LoopState.mem := by
  induction snaps with
  | nil => intro st h; simp [runLoop, except_map_ok, h]
  | cons snap rest ih =>
    intro st h
    unfold runLoop loopBody
    cases hs : stepCurrents area2 st.buffer snap with
    | error e => simp [except_map_error]
    | ok imem =>
      simp only []
      exact ih _ (by simp [h, fileDeposit_eq_memDeposit])

lemma finalBlock_file_eq_mem (dp : List (List (List ℚ))) (area2 : List ℚ)
    (st : LoopState) (snap : List (List ℚ)) (h : st.file = st.mem) :
    (finalBlock dp area2 st snap).file = (finalBlock dp area2 st snap).mem := by
  unfold finalBlock loopBody
  cases hs : stepCurrents area2 st.buffer snap with
  | error e => simpa using h
  | ok imem => simp [h, fileDeposit_eq_memDeposit]

lemma runLoop_mem_indep_file (dp : List (List (List ℚ))) (area2 : List ℚ)
    (snaps : List (List (List ℚ))) :
    ∀ (buffer : List ℚ) (mem f1 f2 : Option (List Series)),
      (runLoop dp area2 ⟨buffer, mem, f1⟩ snaps).map
          (fun s => (s.buffer, s.mem)) =
        (runLoop dp area2 ⟨buffer, mem, f2⟩ snaps).map
          (fun s => (s.buffer, s.mem)) := by
  induction snaps with
  | nil => intro buffer mem f1 f2; simp [runLoop, except_map_ok]
  | cons snap rest ih =>
    intro buffer mem f1 f2
    unfold runLoop loopBody
    cases hs : stepCurrents area2 buffer snap with
    | error e => simp
    | ok imem =>
      simp only []
      exact ih imem (mem.map (memDeposit dp imem)) _ _

lemma finalBlock_mem_congr (dp : List (List (List ℚ))) (area2 : List ℚ)
    (snap : List (List ℚ)) (s1 s2 : LoopState) (hb : s1.buffer = s2.buffer)
    (hm : s1.mem = s2.mem) :
    (finalBlock dp area2 s1 snap).mem = (finalBlock dp area2 s2 snap).mem := by
  unfold finalBlock loopBody
  rw [hb]
  cases hs : stepCurrents area2 s2.buffer snap with
  | error e => simpa using hm
  | ok imem => simp [hm]

lemma driverFinish_mem_congr (tf1 tf2 : Bool) (fn1 fn2 : Option String)
    (ws1 ws2 : List String) (dp : List (List (List ℚ))) (area2 : List ℚ)
    (finalSnap : List (List ℚ)) (r1 r2 : Except String LoopState)
    (h : r1.map (fun s => (s.buffer, s.mem)) =
      r2.map (fun s => (s.buffer, s.mem))) :
    (driverFinish tf1 fn1 ws1 dp area2 finalSnap r1).map DriverOut.mem =
      (driverFinish tf2 fn2 ws2 dp area2 finalSnap r2).map DriverOut.mem := by
  cases r1 with
  | error e1 =>
    cases r2 with
    | error e2 =>
      simp only [except_map_error] at h
      injection h with h'
      rw [h']
      rfl
    | ok s2 =>
      simp only [except_map_error, except_map_ok] at h
      exact Except.noConfusion h
  | ok s1 =>
    cases r2 with
    | error e2 =>
      simp only [except_map_error, except_map_ok] at h
      exact Except.noConfusion h
    | ok s2 =>
      simp only [except_map_ok] at h
      injection h with h'
      simp only [driverFinish, except_map_ok]
      exact congrArg Except.ok
        (finalBlock_mem_congr dp area2 finalSnap s1 s2
          (congrArg Prod.fst h') (congrArg Prod.snd h'))

lemma driverFinish_file_eq_mem (tf : Bool) (fn : Option String)
    (ws : List String) (dp : List (List (List ℚ))) (area2 : List ℚ)
    (finalSnap : List (List ℚ)) (r : Except String LoopState)
    (h : r.map LoopState.file = r.map LoopState.mem) :
    (driverFinish tf fn ws dp area2 finalSnap r).map DriverOut.file =
      (driverFinish tf fn ws dp area2 finalSnap r).map DriverOut.mem := by
  cases r with
  | error e => rfl
  | ok s =>
    simp only [except_map_ok] at h
    injection h with h'
    simp only [driverFinish, except_map_ok]
    exact congrArg Except.ok (finalBlock_file_eq_mem dp area2 s finalSnap h')

lemma driverFinish_warnings (tf : Bool) (fn : Option String)
    (ws : List String) (dp : List (List (List ℚ))) (area2 : List ℚ)
    (finalSnap : List (List ℚ)) (r : Except String LoopState) :
    driverFinish tf fn ws dp area2 finalSnap r =
      (driverFinish tf fn [] dp area2 finalSnap r).map
        (fun o => { o with warnings := ws }) := by
  cases r <;> rfl

/-- C7: with the memory path on, (a) the in-memory result series do not
depend on whether the file path is also on, and (b) when both paths are
on, the file datasets hold exactly the in-memory values. -/
theorem c7_memory_file_paths_agree (fn : String)
    (dp : List (List (List ℚ))) (totnsegs : ℕ) (area : List ℚ)
    (loopSnaps : List (List (List ℚ))) (finalSnap : List (List ℚ)) :
    (run_simulation_with_electrode_loop true true true (some fn) dp totnsegs
        area loopSnaps finalSnap).map DriverOut.mem =
      (run_simulation_with_electrode_loop true true false none dp totnsegs
        area loopSnaps finalSnap).map DriverOut.mem ∧
    (run_simulation_with_electrode_loop true true true (some fn) dp totnsegs
        area loopSnaps finalSnap).map DriverOut.file =
      (run_simulation_with_electrode_loop true true true (some fn) dp totnsegs
        area loopSnaps finalSnap).map DriverOut.mem := by
  have e1 : run_simulation_with_electrode_loop true true true (some fn) dp
      totnsegs area loopSnaps finalSnap =
      driverFinish true (some fn) [] dp (area.map (· * (1/100))) finalSnap
        (runLoop dp (area.map (· * (1/100)))
          ⟨List.replicate totnsegs 0, some (dp.map (fun _ => [])),
            some (dp.map (fun _ => []))⟩ loopSnaps) := rfl
  have e2 : run_simulation_with_electrode_loop true true false none dp
      totnsegs area loopSnaps finalSnap =
      driverFinish false none [] dp (area.map (· * (1/100))) finalSnap
        (runLoop dp (area.map (· * (1/100)))
          ⟨List.replicate totnsegs 0, some (dp.map (fun _ => [])),
            none⟩ loopSnaps) := rfl
  rw [e1, e2]
  constructor
  · exact driverFinish_mem_congr true false (some fn) none [] [] dp
      (area.map (· * (1/100))) finalSnap _ _
      (runLoop_mem_indep_file dp (area.map (· * (1/100))) loopSnaps
        (List.replicate totnsegs 0) (some (dp.map (fun _ => [])))
        (some (dp.map (fun _ => []))) none)
  · exact driverFinish_file_eq_mem true (some fn) [] dp
      (area.map (· * (1/100))) finalSnap _
      (runLoop_file_eq_mem dp (area.map (· * (1/100))) loopSnaps
        ⟨List.replicate totnsegs 0, some (dp.map (fun _ => [])),
          some (dp.map (fun _ => []))⟩ rfl)

/-- C8: when the `h5py` import fails the driver prints the warning,
forces `to_file = False` and `file_name = None`, and otherwise behaves
exactly like a run with the file path disabled: the run is not aborted
and the memory path is unaffected. -/
theorem c8_h5py_fallback (to_memory to_file : Bool)
    (file_name : Option String) (dp : List (List (List ℚ))) (totnsegs : ℕ)
    (area : List ℚ) (loopSnaps : List (List (List ℚ)))
    (finalSnap : List (List ℚ)) :
    run_simulation_with_electrode_loop false to_memory to_file file_name dp
        totnsegs area loopSnaps finalSnap =
      (run_simulation_with_electrode_loop true to_memory false none dp
        totnsegs area loopSnaps finalSnap).map
          (fun o =>
            { o with warnings := ["h5py not found, LFP to file not possible"] }) := by
  exact driverFinish_warnings false none
    ["h5py not found, LFP to file not possible"] dp (area.map (· * (1/100)))
    finalSnap
    (runLoop dp (area.map (· * (1/100)))
      ⟨List.replicate totnsegs 0,
        if to_memory then some (dp.map (fun _ => [])) else none, none⟩
      loopSnaps)

/-- C9 counterexample: the claim says an error raised during the
final-step LFP computation propagates to the caller.  At this concrete
input the final snapshot exposes two segments while `totnsegs = 1`, so
the final read raises `IndexError`; the run nevertheless returns
normally (`.ok`), with only the single loop column deposited. -/
theorem c9_final_error_not_propagated :
    run_simulation_with_electrode_loop true true false none [[[2]]] 1 [50]
        [[[4]]] [[1], [1]] =
      .ok ⟨some [[[4]]], none, none, []⟩ := by
  norm_num [run_simulation_with_electrode_loop, importH5py, driverCore,
    driverFinish, runLoop, loopBody, stepCurrents, readSnapshot, finalBlock,
    memDeposit, fileDeposit, npDot, dotList]

/-- C9 amended: an error raised during the final-step LFP computation
after the loop terminates is caught by the bare `except: pass` and
silently swallowed: the run returns normally with exactly the columns
accumulated during the loop (the last result column is left unwritten)
instead of surfacing the error to the caller. -/
theorem c9_final_error_swallowed (dp : List (List (List ℚ))) (totnsegs : ℕ)
    (area : List ℚ) (loopSnaps : List (List (List ℚ)))
    (finalSnap : List (List ℚ)) (st : LoopState) (e : String)
    (hloop : runLoop dp (area.map (· * (1/100)))
        ⟨List.replicate totnsegs 0, some (dp.map (fun _ => [])), none⟩
        loopSnaps = .ok st)
    (hfinal : stepCurrents (area.map (· * (1/100))) st.buffer finalSnap =
        .error e) :
    run_simulation_with_electrode_loop true true false none dp totnsegs area
        loopSnaps finalSnap = .ok ⟨st.mem, st.file, none, []⟩ := by
  have e2 : run_simulation_with_electrode_loop true true false none dp
      totnsegs area loopSnaps finalSnap =
      driverFinish false none [] dp (area.map (· * (1/100))) finalSnap
        (runLoop dp (area.map (· * (1/100)))
          ⟨List.replicate totnsegs 0, some (dp.map (fun _ => [])),
            none⟩ loopSnaps) := rfl
  rw [e2, hloop]
  simp only [driverFinish]
  unfold finalBlock loopBody
  rw [hfinal]
  rfl

/-- Witness for `c9_final_error_swallowed`: a one-segment cell, a single
aligned loop step, and a misaligned final snapshot. -/
theorem c9_final_error_swallowed_witness :
    runLoop [[[3]]] ([(100:ℚ)].map (· * (1/100)))
        ⟨List.replicate 1 0, some ([[[(3:ℚ)]]].map (fun _ => [])), none⟩
        [[[5]]] = .ok ⟨[5], some [[[15]]], none⟩ ∧
    stepCurrents ([(100:ℚ)].map (· * (1/100))) [5] [[1], [2]] =
      .error "IndexError" ∧
    run_simulation_with_electrode_loop true true false none [[[3]]] 1 [100]
        [[[5]]] [[1], [2]] = .ok ⟨some [[[15]]], none, none, []⟩ := by
  have h1 : runLoop [[[3]]] ([(100:ℚ)].map (· * (1/100)))
      ⟨List.replicate 1 0, some ([[[(3:ℚ)]]].map (fun _ => [])), none⟩
      [[[5]]] = .ok ⟨[5], some [[[15]]], none⟩ := by
    norm_num [runLoop, loopBody, stepCurrents, readSnapshot, memDeposit,
      npDot, dotList]
  have h2 : stepCurrents ([(100:ℚ)].map (· * (1/100))) [5] [[1], [2]] =
      .error "IndexError" := by
    norm_num [stepCurrents, readSnapshot]
  exact ⟨h1, h2,
    c9_final_error_swallowed [[[3]]] 1 [100] [[[5]]] [[1], [2]]
      ⟨[5], some [[[15]]], none⟩ "IndexError" h1 h2⟩

/-- C2: the claim says a section with zero 3-D points but a nonzero
segment count makes `_collect_geometry_neuron` raise a `GeometryError`.
The code has no error path at all: on a cell whose first section has one
segment and no 3-D points (areas by iteration order `[3, 5]`), the
extractor returns normally and the second section's data lands at
index 0 while index 1 keeps its zero initialisation — exactly the
misaligned-arrays outcome the claim says must be prevented. -/
theorem c2_zero_n3d_silently_skipped :
    collect_geometry_neuron
        { allseclist :=
            [ { pt3d := [], L := 1,
                segs := [{ x := 1/2, diam := 1, area := 3 }] },
              { pt3d := [⟨0, 0, 0, 0⟩, ⟨1, 10, 0, 0⟩], L := 1,
                segs := [{ x := 1/2, diam := 2, area := 5 }] } ],
          totnsegs := 2 } =
      { xstart := [0, 0], ystart := [0, 0], zstart := [0, 0],
        xend := [10, 0], yend := [0, 0], zend := [0, 0],
        area := [5, 0], diam := [2, 0], length := [1, 0] } := by
  norm_num [collect_geometry_neuron, sectionGeom, padTo, npInterp,
    npInterpAux, pyRound6, roundHalfEven, List.foldl]

/-- C3: the claim says the probe leaves every electrode's `LFP` and
`CellLFP` exactly as before, including mixed lists.  Because
`restoreLFP`/`restoreCellLFP` and the saved copies are initialised
outside the loop and never reset, after probing the list
`[e0 with LFP=[[1]], CellLFP=[[[2]]]; e1 with neither]` the second
electrode ends up carrying `e0`'s saved `LFP` and `CellLFP` instead of
remaining without them. -/
theorem c3_probe_leaks_prior_state :
    probeRun
        [ { LFP := some [[1]], CellLFP := some [[[2]]], perCellLFP := false,
            probeLFP := [[3]], electrodecoeff := none },
          { LFP := none, CellLFP := none, perCellLFP := false,
            probeLFP := [[4]], electrodecoeff := none } ] [] =
      { dotprodcoeffs := [[[3]], [[4]]],
        restoreLFP := true, restoreCellLFP := true,
        LFPcopy := some [[1]], CellLFPsaved := some [[[2]]],
        processed :=
          [ { LFP := some [[1]], CellLFP := some [[[2]]],
              perCellLFP := false, probeLFP := [[3]],
              electrodecoeff := none },
            { LFP := some [[1]], CellLFP := some [[[2]]],
              perCellLFP := false, probeLFP := [[4]],
              electrodecoeff := none } ] } := by
  norm_num [probeRun, probeStep, calc_lfp, List.foldl]

/-- C4: the claim says that with `lendotrodcoeffs0 > 0` the finalization
still merges each remaining series onto its electrode and appends to the
electrode's `CellLFP`.  Line 283 checks `hasattr(electrodes[j], ...)`
instead of `electrodes[j - lendotrodcoeffs0]`, so with one ad-hoc
coefficient matrix and a single electrode with `perCellLFP` set the loop
reaches `j = 1`, indexes `electrodes[1]` out of range and raises
`IndexError` instead of appending. -/
theorem c4_finalize_wrong_index :
    finalize_to_memory 1
        (some [ { LFP := none, CellLFP := some [], perCellLFP := true,
                  probeLFP := [[0]], electrodecoeff := none } ])
        [[[7]], [[8]]] [[[1]], [[2]]] = .error "IndexError" := by
  norm_num [finalize_to_memory, finalizeLoop, finalizeStep]

/-- C10: after the probe phase the cell's `tvec` is exactly its prior
value and `imem` is restored to its prior state: a cell that had an
`imem` array holds an equal array again, and a cell without one has the
temporary identity matrix deleted, leaving the attribute absent. -/
theorem c10_probe_restores_cell_state (cell : CellProbe)
    (els : List Electrode) (dp0 : List (List (List ℚ))) :
    (probePhase cell els dp0).1.tvec = cell.tvec ∧
    (probePhase cell els dp0).1.imem = cell.imem := by
  cases h : cell.imem <;> simp [probePhase, h]

end LFPy
